import Mathlib

/-!
Verification of the animated performance-metrics widget
(`src/components/PerformanceMetrics.tsx`).

The component loads a metric catalog, waits for a visibility trigger, then
runs a 200-step interval loop; each tick computes an eased progress value and
reformats every metric's displayed `(value, suffix)` pair.

Numeric values are embedded in an arbitrary linearly ordered field with a
floor (instantiated at `ℚ` for executable checks and at `ℝ` where the easing
function, which uses a real exponential, is involved). Displayed values are
integers (`Math.floor` / `Math.round` results).
-/

/-- Embeds the `MetricConfig` interface (lines 12-20 of the source): one entry
of the fetched catalog. `displayAsK` is the optional field the source declares
but never reads. -/
structure MetricConfig (α : Type) where
  id : String
  label : String
  value : α
  suffix : String
  icon : String
  color : String
  displayAsK : Option Bool

/-- Embeds the `Metric` interface (lines 26-33): one entry of the mutable
display state. The `icon` field holds the resolved icon key (the source stores
the rendered glyph of that key). -/
structure Metric where
  id : String
  label : String
  value : ℤ
  suffix : String
  icon : String
  color : String
  deriving DecidableEq, Repr

/-- The keys of `iconMap` (lines 5-10). -/
def iconKeys : List String := ["Activity", "Clock", "TrendingUp", "Zap"]

/-- Embeds `iconMap[metric.icon] || iconMap.Activity` (line 49): an unknown
icon key falls back to `"Activity"`. -/
def resolveIcon (key : String) : String :=
  if key ∈ iconKeys then key else "Activity"

/-- Embeds the construction of `initialMetrics` (lines 46-53): every metric
starts displayed at `0` with its configured suffix. -/
def initMetrics {α : Type} (data : List (MetricConfig α)) : List Metric :=
  data.map fun metric =>
    { id := metric.id, label := metric.label, value := 0,
      suffix := metric.suffix, icon := resolveIcon metric.icon,
      color := metric.color }

/-- Embeds `finalValues.current = data.metrics.map(m => m.value)` (line 45). -/
def finalsOf {α : Type} (data : List (MetricConfig α)) : List α :=
  data.map (·.value)

/-- Embeds the per-metric body of the `setMetricsData` callback
(lines 105-134): given the metric's position, its target value, its current
suffix and the eased progress, produce the displayed `(value, suffix)` pair.
Branch order matches the source: the positional large-count special case
(`index === 3`) first, then the small-target snapping (`targetValue <= 5`),
then the standard flooring. -/
def formatMetric {α : Type} [LinearOrderedField α] [FloorRing α]
    (index : ℕ) (targetValue : α) (suffix : String) (easedProgress : α) :
    ℤ × String :=
  if index = 3 then
    let rawValue := targetValue * easedProgress
    if rawValue < 999 then (⌊rawValue⌋, "")
    else (1, "K+")
  else if targetValue ≤ 5 then
    let rawValue := targetValue * easedProgress
    if rawValue < 0.5 then (0, suffix)
    else if rawValue < 1.5 then (1, suffix)
    else if rawValue < 2.5 then (2, suffix)
    else (round rawValue, suffix)
  else
    (⌊targetValue * easedProgress⌋, suffix)

/-- Embeds `const duration = 3500` (line 95): the total animation time in
milliseconds. -/
def duration : ℚ := 3500

/-- Embeds `const steps = 200` (line 96): the number of animation ticks. -/
def steps : ℕ := 200

/-- Embeds `const stepDuration = duration / steps` (line 97): the interval
between ticks in milliseconds. -/
def stepDuration : ℚ := duration / (steps : ℚ)

/-- Embeds `easeOutExpoSlow` (lines 91-93):
`t === 1 ? 1 : 1 - Math.pow(2, -10 * t) * 0.3`, read over the real numbers. -/
noncomputable def easeOutExpoSlow (t : ℝ) : ℝ :=
  if t = 1 then 1 else 1 - (2 : ℝ) ^ (-10 * t) * 0.3

/-- Embeds one `setMetricsData(prevMetrics => prevMetrics.map(...))` update
(lines 104-135): every metric is reformatted from its target value and the
tick's eased progress. -/
def tickMetrics {α : Type} [LinearOrderedField α] [FloorRing α]
    (finals : List α) (ms : List Metric) (easedProgress : α) : List Metric :=
  ms.mapIdx fun index metric =>
    let targetValue := finals.getD index 0
    let p := formatMetric index targetValue metric.suffix easedProgress
    { metric with value := p.1, suffix := p.2 }

/-- Folds `tickMetrics` over a list of eased-progress values: the metric list
after a sequence of ticks. -/
def runTicks {α : Type} [LinearOrderedField α] [FloorRing α]
    (finals : List α) (ms : List Metric) (es : List α) : List Metric :=
  es.foldl (fun acc e => tickMetrics finals acc e) ms

/-- The per-mount widget state: the three `useState` values (`metricsData`,
`loading`, `hasAnimated`), the `finalValues` ref, and the animation-effect
locals (`currentStep`, whether the interval timer is live). -/
structure WidgetState where
  loading : Bool
  hasAnimated : Bool
  timerRunning : Bool
  currentStep : ℕ
  finals : List ℝ
  metrics : List Metric

/-- The state on mount: `loading = true`, `hasAnimated = false`, no timer, no
metrics (lines 35-39). -/
def initState : WidgetState :=
  { loading := true, hasAnimated := false, timerRunning := false,
    currentStep := 0, finals := [], metrics := [] }

/-- Embeds the settled fetch of `/config/metrics.json` (lines 42-61): on
success the `then` handler stores the final values and the zeroed metrics and
clears `loading`; on failure the `catch` handler logs and clears `loading`,
touching nothing else. Both handlers return a plain state — the error is
consumed, never rethrown to a caller. -/
def applyLoadResult (s : WidgetState)
    (result : Except String (List (MetricConfig ℝ))) : WidgetState :=
  match result with
  | .ok data =>
      { s with finals := finalsOf data, metrics := initMetrics data,
               loading := false }
  | .error _ => { s with loading := false }

/-- The externally scheduled callbacks that can reach the widget: the settled
catalog fetch, an `IntersectionObserver` callback entry (with its
`isIntersecting` flag), and an interval tick. -/
inductive Event where
  | load (result : Except String (List (MetricConfig ℝ)))
  | intersect (isIntersecting : Bool)
  | tick

/-- Embeds one interval callback (lines 99-141): while the timer is live,
increment `currentStep`, compute the eased progress at `currentStep / steps`,
reformat every metric, and clear the interval once `currentStep >= steps`.
After `clearInterval` the callback never runs again, so a tick on a stopped
timer is the identity. -/
noncomputable def tick (s : WidgetState) : WidgetState :=
  if s.timerRunning = true then
    let currentStep := s.currentStep + 1
    let progress : ℝ := (currentStep : ℝ) / (steps : ℝ)
    let easedProgress := easeOutExpoSlow progress
    let metrics := tickMetrics s.finals s.metrics easedProgress
    if currentStep ≥ steps then
      { s with currentStep := currentStep, metrics := metrics,
               timerRunning := false }
    else
      { s with currentStep := currentStep, metrics := metrics }
  else s

/-- One scheduled callback. The observer callback (lines 66-73) sets
`hasAnimated` only when the entry is intersecting and the flag is still false
(once the flag is true the effect's `if (!hasAnimated)` guard has disconnected
the observer); flipping the flag re-runs the animation effect (lines 88-144),
which starts the interval with a fresh `currentStep = 0`. -/
noncomputable def step (s : WidgetState) : Event → WidgetState
  | .load result => applyLoadResult s result
  | .intersect isIntersecting =>
      if s.hasAnimated = false ∧ isIntersecting = true then
        { s with hasAnimated := true, timerRunning := true, currentStep := 0 }
      else s
  | .tick => tick s

/-- A sequence of scheduled callbacks. -/
noncomputable def run (s : WidgetState) (evs : List Event) : WidgetState :=
  evs.foldl step s

/-- The mount of the visibility effect (lines 64-86) under an explicit host
capability: `cap = some ()` when the host provides the `IntersectionObserver`
constructor. The source calls `new IntersectionObserver(...)` unconditionally
— no feature test, no `try`/`catch` — so when the capability is absent the
effect throws a `ReferenceError` and no fallback fires the trigger. -/
def mountObserverEffect (cap : Option Unit) (s : WidgetState) :
    Except String WidgetState :=
  if s.hasAnimated = true then .ok s
  else
    match cap with
    | none => .error "ReferenceError: IntersectionObserver is not defined"
    | some _ => .ok s

/-- The animation-clock invariant of §3 of the spec: the timer only runs, and
`currentStep` only moves off zero, after the trigger has fired. -/
def ClockInv (s : WidgetState) : Prop :=
  (s.timerRunning = true → s.hasAnimated = true) ∧
  (s.currentStep ≠ 0 → s.hasAnimated = true)

/-- Two catalog entries that agree on every field the program reads; only the
optional `displayAsK` flag may differ. -/
def sameExceptDisplayAsK {α : Type} (m1 m2 : MetricConfig α) : Prop :=
  m1.id = m2.id ∧ m1.label = m2.label ∧ m1.value = m2.value ∧
  m1.suffix = m2.suffix ∧ m1.icon = m2.icon ∧ m1.color = m2.color

lemma easeOutExpoSlow_one : easeOutExpoSlow 1 = 1 := if_pos rfl

lemma easeOutExpoSlow_of_ne_one {t : ℝ} (h : t ≠ 1) :
    easeOutExpoSlow t = 1 - (2 : ℝ) ^ (-10 * t) * 0.3 := if_neg h

lemma easeOutExpoSlow_le_one (t : ℝ) : easeOutExpoSlow t ≤ 1 := by
  unfold easeOutExpoSlow
  split_ifs with h
  · exact le_refl 1
  · have h2 : (0 : ℝ) ≤ (2 : ℝ) ^ (-10 * t) := Real.rpow_nonneg (by norm_num) _
    nlinarith

lemma easeOutExpoSlow_mono {t1 t2 : ℝ} (h12 : t1 ≤ t2) (h2 : t2 ≤ 1) :
    easeOutExpoSlow t1 ≤ easeOutExpoSlow t2 := by
  rcases eq_or_lt_of_le h2 with heq | hlt
  · rw [heq, easeOutExpoSlow_one]
    exact easeOutExpoSlow_le_one t1
  · have h1 : t1 ≠ 1 := by intro h; rw [h] at h12; linarith
    rw [easeOutExpoSlow_of_ne_one h1, easeOutExpoSlow_of_ne_one (ne_of_lt hlt)]
    have hpow : (2 : ℝ) ^ (-10 * t2) ≤ (2 : ℝ) ^ (-10 * t1) :=
      (Real.rpow_le_rpow_left_iff (by norm_num)).2 (by linarith)
    have h03 : (0 : ℝ) ≤ 0.3 := by norm_num
    have := mul_le_mul_of_nonneg_right hpow h03
    linarith

lemma three_le_round {α : Type} [LinearOrderedField α] [FloorRing α]
    {x : α} (h : (5 : α) / 2 ≤ x) : (3 : ℤ) ≤ round x := by
  rw [round_eq, Int.le_floor]
  push_cast
  linarith

lemma round_mono_of_le {α : Type} [LinearOrderedField α] [FloorRing α]
    {x y : α} (h : x ≤ y) : round x ≤ round y := by
  rw [round_eq, round_eq]
  exact Int.floor_mono (by linarith)

lemma formatMetric_three {α : Type} [LinearOrderedField α] [FloorRing α]
    (targetValue : α) (suffix : String) (easedProgress : α) :
    formatMetric 3 targetValue suffix easedProgress =
      if targetValue * easedProgress < 999
      then (⌊targetValue * easedProgress⌋, "")
      else (1, "K+") := by
  unfold formatMetric
  rw [if_pos rfl]

lemma formatMetric_small {α : Type} [LinearOrderedField α] [FloorRing α]
    {index : ℕ} {targetValue : α} (suffix : String) (easedProgress : α)
    (hi : index ≠ 3) (ht : targetValue ≤ 5) :
    formatMetric index targetValue suffix easedProgress =
      ((if targetValue * easedProgress < 0.5 then (0 : ℤ)
        else if targetValue * easedProgress < 1.5 then 1
        else if targetValue * easedProgress < 2.5 then 2
        else round (targetValue * easedProgress)), suffix) := by
  unfold formatMetric
  rw [if_neg hi, if_pos ht]
  dsimp only
  split_ifs <;> rfl

lemma formatMetric_std {α : Type} [LinearOrderedField α] [FloorRing α]
    {index : ℕ} {targetValue : α} (suffix : String) (easedProgress : α)
    (hi : index ≠ 3) (ht : ¬ targetValue ≤ 5) :
    formatMetric index targetValue suffix easedProgress =
      (⌊targetValue * easedProgress⌋, suffix) := by
  unfold formatMetric
  rw [if_neg hi, if_neg ht]

lemma snap_mono {α : Type} [LinearOrderedField α] [FloorRing α]
    {r1 r2 : α} (h : r1 ≤ r2) :
    (if r1 < 0.5 then (0 : ℤ)
     else if r1 < 1.5 then 1
     else if r1 < 2.5 then 2
     else round r1) ≤
    (if r2 < 0.5 then (0 : ℤ)
     else if r2 < 1.5 then 1
     else if r2 < 2.5 then 2
     else round r2) := by
  split_ifs <;>
    first
      | exact round_mono_of_le h
      | (exfalso; linarith)
      | linarith
      | (have h3 := three_le_round (show (5 : α) / 2 ≤ r2 by linarith); linarith)

lemma tick_running_eq {s : WidgetState} (h : s.timerRunning = true) :
    tick s = { s with
      currentStep := s.currentStep + 1,
      metrics := tickMetrics s.finals s.metrics
        (easeOutExpoSlow (((s.currentStep + 1 : ℕ) : ℝ) / (steps : ℝ))),
      timerRunning := decide (s.currentStep + 1 < steps) } := by
  unfold tick
  rw [if_pos h]
  dsimp only
  split_ifs with hge
  · have hlt : ¬ (s.currentStep + 1 < steps) := not_lt.2 hge
    simp [hlt]
  · have hlt : s.currentStep + 1 < steps := lt_of_not_ge hge
    simp [hlt, h]

lemma tick_of_not_running {s : WidgetState} (h : ¬ s.timerRunning = true) :
    tick s = s := by
  unfold tick
  exact if_neg h

lemma tick_of_stopped {s : WidgetState} (h : s.timerRunning = false) :
    tick s = s :=
  tick_of_not_running (by rw [h]; exact Bool.false_ne_true)

lemma hasAnimated_step (s : WidgetState) (ev : Event)
    (h : s.hasAnimated = true) : (step s ev).hasAnimated = true := by
  cases ev with
  | load result => cases result with
    | ok data => exact h
    | error msg => exact h
  | intersect b =>
      simp only [step]
      split_ifs <;> first | rfl | exact h
  | tick =>
      simp only [step]
      by_cases hr : s.timerRunning = true
      · rw [tick_running_eq hr]
        exact h
      · rw [tick_of_not_running hr]
        exact h

lemma step_intersect_fired (s : WidgetState) (b : Bool)
    (h : s.hasAnimated = true) : step s (.intersect b) = s := by
  simp only [step]
  exact if_neg (by simp [h])

lemma clockInv_initState : ClockInv initState :=
  ⟨fun h => Bool.noConfusion h, fun h => absurd rfl h⟩

lemma clockInv_step {s : WidgetState} (hs : ClockInv s) (ev : Event) :
    ClockInv (step s ev) := by
  obtain ⟨h1, h2⟩ := hs
  cases ev with
  | load result => cases result with
    | ok data => exact ⟨h1, h2⟩
    | error msg => exact ⟨h1, h2⟩
  | intersect b =>
      simp only [step]
      split_ifs with hc
      · exact ⟨fun _ => rfl, fun _ => rfl⟩
      · exact ⟨h1, h2⟩
  | tick =>
      simp only [step]
      by_cases hr : s.timerRunning = true
      · rw [tick_running_eq hr]
        exact ⟨fun _ => h1 hr, fun _ => h1 hr⟩
      · rw [tick_of_not_running hr]
        exact ⟨h1, h2⟩

lemma clockInv_run {s : WidgetState} (hs : ClockInv s) (evs : List Event) :
    ClockInv (run s evs) := by
  induction evs generalizing s with
  | nil => exact hs
  | cons ev evs ih => exact ih (clockInv_step hs ev)

lemma tick_iterate_stopped {s : WidgetState} (h : s.timerRunning = false)
    (m : ℕ) : tick^[m] s = s := by
  induction m with
  | zero => rfl
  | succ m ih => rw [Function.iterate_succ_apply', ih, tick_of_stopped h]

lemma tick_iterate_progress {s : WidgetState} (hrun : s.timerRunning = true)
    (h0 : s.currentStep = 0) {k : ℕ} (hk : k ≤ steps) :
    (tick^[k] s).currentStep = k ∧
      (tick^[k] s).timerRunning = decide (k < steps) := by
  induction k with
  | zero => exact ⟨h0, hrun.trans (by decide)⟩
  | succ k ih =>
      have hklt : k < steps := Nat.lt_of_succ_le hk
      obtain ⟨hc, ht⟩ := ih (Nat.le_of_lt hklt)
      have htrue : (tick^[k] s).timerRunning = true :=
        ht.trans (decide_eq_true hklt)
      rw [Function.iterate_succ_apply', tick_running_eq htrue, hc]
      exact ⟨rfl, rfl⟩

lemma tickMetrics_nil {α : Type} [LinearOrderedField α] [FloorRing α]
    (finals : List α) (e : α) : tickMetrics finals [] e = [] := by
  simp [tickMetrics]

lemma metrics_empty_step {s : WidgetState} (ev : Event)
    (hm : s.metrics = []) (hne : ∀ data, ev ≠ .load (.ok data)) :
    (step s ev).metrics = [] := by
  cases ev with
  | load result => cases result with
    | ok data => exact absurd rfl (hne data)
    | error msg => exact hm
  | intersect b =>
      simp only [step]
      split_ifs <;> exact hm
  | tick =>
      simp only [step]
      by_cases hr : s.timerRunning = true
      · rw [tick_running_eq hr]
        show tickMetrics s.finals s.metrics _ = []
        rw [hm]
        exact tickMetrics_nil _ _
      · rw [tick_of_not_running hr]
        exact hm

lemma loading_false_step {s : WidgetState} (ev : Event)
    (h : s.loading = false) : (step s ev).loading = false := by
  cases ev with
  | load result => cases result with
    | ok data => rfl
    | error msg => rfl
  | intersect b =>
      simp only [step]
      split_ifs <;> exact h
  | tick =>
      simp only [step]
      by_cases hr : s.timerRunning = true
      · rw [tick_running_eq hr]
        exact h
      · rw [tick_of_not_running hr]
        exact h

lemma metrics_empty_run {s : WidgetState} (evs : List Event)
    (hm : s.metrics = []) (hne : ∀ data, Event.load (.ok data) ∉ evs) :
    (run s evs).metrics = [] := by
  induction evs generalizing s with
  | nil => exact hm
  | cons ev evs ih =>
      have h1 : ∀ data, ev ≠ .load (.ok data) := by
        intro data heq
        refine hne data ?_
        rw [← heq]
        exact List.mem_cons_self _ _
      have h2 : ∀ data, Event.load (.ok data) ∉ evs := fun data hmem =>
        hne data (List.mem_cons_of_mem _ hmem)
      exact ih (metrics_empty_step ev hm h1) h2

lemma loading_false_run {s : WidgetState} (evs : List Event)
    (h : s.loading = false) : (run s evs).loading = false := by
  induction evs generalizing s with
  | nil => exact h
  | cons ev evs ih => exact ih (loading_false_step ev h)

lemma initMetrics_eq_of_sameExceptK {α : Type}
    {c1 c2 : List (MetricConfig α)}
    (h : List.Forall₂ sameExceptDisplayAsK c1 c2) :
    initMetrics c1 = initMetrics c2 ∧ finalsOf c1 = finalsOf c2 := by
  induction h with
  | nil => exact ⟨rfl, rfl⟩
  | cons hab htail ih =>
      obtain ⟨hid, hlabel, hvalue, hsuffix, hicon, hcolor⟩ := hab
      obtain ⟨ih1, ih2⟩ := ih
      constructor
      · simp only [initMetrics, List.map_cons]
        simp only [initMetrics] at ih1
        rw [hid, hlabel, hsuffix, hicon, hcolor, ih1]
      · simp only [finalsOf, List.map_cons]
        simp only [finalsOf] at ih2
        rw [hvalue, ih2]

/-- Claim C1 (counterexample to the claim as stated): the spec's promise that
the final mutation leaves every metric's displayed value exactly equal to its
target fails on the code for the index-3 metric: with target value 1500, at
completed animation (eased progress `ease(1) = 1`) the displayed pair is the
frozen `(1, "K+")`, whose value differs from the target 1500. -/
theorem claim1_cex :
    formatMetric 3 (1500 : ℝ) "+" (easeOutExpoSlow 1) = (1, "K+") ∧
      (1 : ℤ) ≠ 1500 := by
  constructor
  · rw [easeOutExpoSlow_one, formatMetric_three, if_neg (by norm_num)]
  · decide

/-- Claim C1 (amended): for every metric formatted by the standard rule
(index ≠ 3 and targetValue > 5) whose target is a non-negative integer, at
completed animation (`easedProgress = ease(1) = 1`) the displayed value equals
the target exactly and the suffix is the metric's own suffix. The exact
convergence does not extend to the index-3 metric (see `claim1_cex`). -/
theorem claim1_thm (index : ℕ) (n : ℕ) (suffix : String)
    (hi : index ≠ 3) (hn : 5 < n) :
    formatMetric index ((n : ℕ) : ℝ) suffix (easeOutExpoSlow 1) =
      ((n : ℤ), suffix) := by
  have ht : ¬ ((n : ℝ) ≤ 5) := by
    push_neg
    exact_mod_cast hn
  rw [easeOutExpoSlow_one, formatMetric_std suffix 1 hi ht, mul_one,
    Int.floor_natCast]

/-- Witness for C1 at Scenario A's metric: index 0, target 42, suffix "ms". -/
theorem claim1_witness :
    (0 : ℕ) ≠ 3 ∧ 5 < 42 ∧
      formatMetric 0 ((42 : ℕ) : ℝ) "ms" (easeOutExpoSlow 1) =
        (((42 : ℕ) : ℤ), "ms") :=
  ⟨by decide, by decide, claim1_thm 0 42 "ms" (by decide) (by decide)⟩

/-- Claim C2: for the metric at index 3, at eased progress `e` the displayed
pair is `(⌊targetValue * e⌋, "")` when `targetValue * e < 999` (the empty
suffix overriding the metric's own), and exactly `(1, "K+")` otherwise; in
particular at progress 1 the final pair is `(1, "K+")` when
`targetValue * ease(1) ≥ 999` and `(⌊targetValue⌋, "")` when it is below. -/
theorem claim2_thm (targetValue e : ℝ) (suffix : String) :
    (targetValue * e < 999 →
      formatMetric 3 targetValue suffix e = (⌊targetValue * e⌋, "")) ∧
    (999 ≤ targetValue * e →
      formatMetric 3 targetValue suffix e = (1, "K+")) ∧
    (999 ≤ targetValue * easeOutExpoSlow 1 →
      formatMetric 3 targetValue suffix (easeOutExpoSlow 1) = (1, "K+")) ∧
    (targetValue * easeOutExpoSlow 1 < 999 →
      formatMetric 3 targetValue suffix (easeOutExpoSlow 1) =
        (⌊targetValue⌋, "")) := by
  refine ⟨fun h => ?_, fun h => ?_, fun h => ?_, fun h => ?_⟩
  · rw [formatMetric_three, if_pos h]
  · rw [formatMetric_three, if_neg (not_lt.2 h)]
  · rw [formatMetric_three, if_neg (not_lt.2 h)]
  · rw [formatMetric_three, if_pos h, easeOutExpoSlow_one, mul_one]

/-- Witness for C2 at Scenario B's sub-threshold point: target 1500, eased
progress 1/3 gives raw 500 and the displayed pair `(500, "")` as a floor. -/
theorem claim2_witness :
    (1500 : ℝ) * (1 / 3) < 999 ∧
      formatMetric 3 (1500 : ℝ) "+" (1 / 3) = (⌊(1500 : ℝ) * (1 / 3)⌋, "") :=
  ⟨by norm_num, (claim2_thm 1500 (1 / 3) "+").1 (by norm_num)⟩

/-- Claim C3: for a metric with index ≠ 3 and targetValue ≤ 5, the displayed
value snaps `raw = targetValue * easedProgress` by the thresholds
`raw < 0.5 → 0`, `0.5 ≤ raw < 1.5 → 1`, `1.5 ≤ raw < 2.5 → 2`, otherwise
`round raw`; the suffix stays the metric's own. -/
theorem claim3_thm {α : Type} [LinearOrderedField α] [FloorRing α]
    (index : ℕ) (targetValue e : α) (suffix : String)
    (hi : index ≠ 3) (ht : targetValue ≤ 5) :
    (targetValue * e < 0.5 →
      formatMetric index targetValue suffix e = (0, suffix)) ∧
    (0.5 ≤ targetValue * e → targetValue * e < 1.5 →
      formatMetric index targetValue suffix e = (1, suffix)) ∧
    (1.5 ≤ targetValue * e → targetValue * e < 2.5 →
      formatMetric index targetValue suffix e = (2, suffix)) ∧
    (2.5 ≤ targetValue * e →
      formatMetric index targetValue suffix e =
        (round (targetValue * e), suffix)) := by
  refine ⟨fun h1 => ?_, fun h1 h2 => ?_, fun h1 h2 => ?_, fun h1 => ?_⟩
  · rw [formatMetric_small suffix e hi ht, if_pos h1]
  · rw [formatMetric_small suffix e hi ht, if_neg (not_lt.2 h1), if_pos h2]
  · rw [formatMetric_small suffix e hi ht, if_neg (not_lt.2 (by linarith)),
      if_neg (not_lt.2 h1), if_pos h2]
  · rw [formatMetric_small suffix e hi ht, if_neg (not_lt.2 (by linarith)),
      if_neg (not_lt.2 (by linarith)), if_neg (not_lt.2 h1)]

/-- Witness for C3 at Scenario C: target 3 at eased progress 7/15 gives
raw 1.4, which snaps to displayed value 1. -/
theorem claim3_witness :
    (3 : ℚ) * (7 / 15) = 1.4 ∧ (0.5 : ℚ) ≤ 1.4 ∧ (1.4 : ℚ) < 1.5 ∧
      formatMetric 0 (3 : ℚ) "+" (7 / 15) = (1, "+") :=
  ⟨by norm_num, by norm_num, by norm_num,
    (claim3_thm 0 (3 : ℚ) (7 / 15) "+" (by decide) (by norm_num)).2.1
      (by norm_num) (by norm_num)⟩

/-- Claim C4: for a small-target metric (index ≠ 3, 0 ≤ targetValue ≤ 5), the
displayed value is monotone non-decreasing across successive ticks
`j ≤ k` of the 200-step schedule: the eased progress is non-decreasing on the
sampled boundaries and the snapping map is monotone. -/
theorem claim4_thm (index : ℕ) (targetValue : ℝ) (suffix : String)
    (j k : ℕ) (hi : index ≠ 3) (h0 : 0 ≤ targetValue) (ht : targetValue ≤ 5)
    (_hj : 1 ≤ j) (hjk : j ≤ k) (hk : k ≤ steps) :
    (formatMetric index targetValue suffix
        (easeOutExpoSlow ((j : ℝ) / (steps : ℝ)))).1 ≤
      (formatMetric index targetValue suffix
        (easeOutExpoSlow ((k : ℝ) / (steps : ℝ)))).1 := by
  have hsteps : (0 : ℝ) < (steps : ℝ) := by norm_num [steps]
  have hdiv : (j : ℝ) / (steps : ℝ) ≤ (k : ℝ) / (steps : ℝ) :=
    (div_le_div_iff_of_pos_right hsteps).2 (by exact_mod_cast hjk)
  have hone : (k : ℝ) / (steps : ℝ) ≤ 1 := by
    rw [div_le_one hsteps]
    exact_mod_cast hk
  have he := easeOutExpoSlow_mono hdiv hone
  rw [formatMetric_small suffix _ hi ht, formatMetric_small suffix _ hi ht]
  exact snap_mono (mul_le_mul_of_nonneg_left he h0)

/-- Witness for C4: target 3 between ticks 1 and 2. -/
theorem claim4_witness :
    (formatMetric 0 (3 : ℝ) "+"
        (easeOutExpoSlow (((1 : ℕ) : ℝ) / (steps : ℝ)))).1 ≤
      (formatMetric 0 (3 : ℝ) "+"
        (easeOutExpoSlow (((2 : ℕ) : ℝ) / (steps : ℝ)))).1 :=
  claim4_thm 0 3 "+" 1 2 (by decide) (by norm_num) (by norm_num) (by decide)
    (by decide) (by decide)

/-- Claim C5: the easing function is `1 - 2^(-10t) * 0.3` on `[0, 1)` and
exactly 1 at `t = 1` (special-cased); hence `ease(0) = 0.7`, and it is
monotone non-decreasing on the sampled tick boundaries `k/200`, `k = 1..200`. -/
theorem claim5_thm :
    (∀ t : ℝ, 0 ≤ t → t < 1 →
        easeOutExpoSlow t = 1 - (2 : ℝ) ^ (-10 * t) * 0.3) ∧
    easeOutExpoSlow 1 = 1 ∧
    easeOutExpoSlow 0 = 0.7 ∧
    (∀ j k : ℕ, 1 ≤ j → j ≤ k → k ≤ steps →
      easeOutExpoSlow ((j : ℝ) / (steps : ℝ)) ≤
        easeOutExpoSlow ((k : ℝ) / (steps : ℝ))) := by
  refine ⟨fun t _ hlt => easeOutExpoSlow_of_ne_one (ne_of_lt hlt),
    easeOutExpoSlow_one, ?_, ?_⟩
  · rw [easeOutExpoSlow_of_ne_one (by norm_num),
      show (-10 * (0 : ℝ)) = 0 by ring, Real.rpow_zero]
    norm_num
  · intro j k hj hjk hk
    have hsteps : (0 : ℝ) < (steps : ℝ) := by norm_num [steps]
    have hdiv : (j : ℝ) / (steps : ℝ) ≤ (k : ℝ) / (steps : ℝ) :=
      (div_le_div_iff_of_pos_right hsteps).2 (by exact_mod_cast hjk)
    have hone : (k : ℝ) / (steps : ℝ) ≤ 1 := by
      rw [div_le_one hsteps]
      exact_mod_cast hk
    exact easeOutExpoSlow_mono hdiv hone

/-- Witness for C5: monotonicity between ticks 2 and 3. -/
theorem claim5_witness :
    easeOutExpoSlow (((2 : ℕ) : ℝ) / (steps : ℝ)) ≤
      easeOutExpoSlow (((3 : ℕ) : ℝ) / (steps : ℝ)) :=
  claim5_thm.2.2.2 2 3 (by decide) (by decide) (by decide)

/-- Claim C6: the trigger flag is monotone (once true it never becomes false),
an observer callback after the flag is set leaves the state unchanged (the
trigger fires at most once per mount), and in every reachable state the timer
runs — and `currentStep` moves off zero — only after the flag has fired. -/
theorem claim6_thm :
    (∀ (s : WidgetState) (ev : Event), s.hasAnimated = true →
      (step s ev).hasAnimated = true) ∧
    (∀ (s : WidgetState) (b : Bool), s.hasAnimated = true →
      step s (.intersect b) = s) ∧
    (∀ evs : List Event,
      ((run initState evs).timerRunning = true →
        (run initState evs).hasAnimated = true) ∧
      ((run initState evs).currentStep ≠ 0 →
        (run initState evs).hasAnimated = true)) :=
  ⟨hasAnimated_step, step_intersect_fired,
    fun evs => clockInv_run clockInv_initState evs⟩

/-- Witness for C6: a second intersection callback on a fired widget is a
no-op. -/
theorem claim6_witness :
    step { loading := false, hasAnimated := true, timerRunning := false,
           currentStep := 0, finals := [], metrics := [] } (.intersect true) =
      { loading := false, hasAnimated := true, timerRunning := false,
        currentStep := 0, finals := [], metrics := [] } :=
  claim6_thm.2.1 _ true rfl

/-- Claim C7: the tick interval is `duration / steps = 3500 / 200 = 17.5` ms;
from a freshly started timer the loop performs exactly `steps = 200` ticks —
after `k ≤ 200` ticks the step counter reads `k` and the timer is still live
exactly when `k < 200` — and once the timer is cleared no further tick mutates
any state (in particular no metric state). -/
theorem claim7_thm :
    stepDuration = 17.5 ∧ steps = 200 ∧
    (∀ s : WidgetState, s.timerRunning = true → s.currentStep = 0 →
      ∀ k : ℕ, k ≤ steps →
        (tick^[k] s).currentStep = k ∧
          (tick^[k] s).timerRunning = decide (k < steps)) ∧
    (∀ s : WidgetState, s.timerRunning = false → ∀ m : ℕ, tick^[m] s = s) := by
  refine ⟨by norm_num [stepDuration, duration, steps], rfl, ?_, ?_⟩
  · intro s h1 h2 k hk
    exact tick_iterate_progress h1 h2 hk
  · intro s h m
    exact tick_iterate_stopped h m

/-- Witness for C7: after exactly 200 ticks from a fresh start the counter
reads 200 and the timer is cleared. -/
theorem claim7_witness :
    ((tick^[200]) { loading := false, hasAnimated := true,
                    timerRunning := true, currentStep := 0, finals := [],
                    metrics := [] }).currentStep = 200 ∧
      ((tick^[200]) { loading := false, hasAnimated := true,
                      timerRunning := true, currentStep := 0, finals := [],
                      metrics := [] }).timerRunning = false :=
  ⟨(claim7_thm.2.2.1 _ rfl rfl 200 (by decide)).1,
    ((claim7_thm.2.2.1 _ rfl rfl 200 (by decide)).2).trans (by decide)⟩

/-- Claim C8: a failed catalog load is absorbed by the `catch` handler — the
update function returns a plain state, so nothing propagates — the widget
leaves the loading state, and along any later schedule that contains no
successful load the metric list stays empty (zero rendered metrics, metric
state never mutated). -/
theorem claim8_thm (msg : String) :
    (applyLoadResult initState (.error msg)).loading = false ∧
    (applyLoadResult initState (.error msg)).metrics = [] ∧
    (∀ evs : List Event, (∀ data, Event.load (.ok data) ∉ evs) →
      (run (applyLoadResult initState (.error msg)) evs).loading = false ∧
        (run (applyLoadResult initState (.error msg)) evs).metrics = []) :=
  ⟨rfl, rfl, fun evs hne =>
    ⟨loading_false_run evs rfl, metrics_empty_run evs rfl hne⟩⟩

/-- Witness for C8: a failed load followed by a trigger and two ticks still
shows no metrics and is not loading. -/
theorem claim8_witness :
    (∀ data, Event.load (.ok data) ∉
      ([Event.tick, Event.intersect true, Event.tick] : List Event)) ∧
    (run (applyLoadResult initState (.error "fetch failed"))
        [Event.tick, Event.intersect true, Event.tick]).loading = false ∧
    (run (applyLoadResult initState (.error "fetch failed"))
        [Event.tick, Event.intersect true, Event.tick]).metrics = [] := by
  have hne : ∀ data, Event.load (.ok data) ∉
      ([Event.tick, Event.intersect true, Event.tick] : List Event) := by
    intro data
    simp
  exact ⟨hne, ((claim8_thm "fetch failed").2.2 _ hne).1,
    ((claim8_thm "fetch failed").2.2 _ hne).2⟩

/-- Claim C9 (code bug): the spec requires that a missing visibility
capability degrade to an immediate trigger on mount, but the source constructs
`IntersectionObserver` unconditionally; in a host without the capability the
mount effect throws and the trigger never fires (`hasAnimated` stays false) —
the animation is withheld, not run immediately. -/
theorem claim9_thm :
    mountObserverEffect none initState =
      .error "ReferenceError: IntersectionObserver is not defined" ∧
    initState.hasAnimated = false :=
  ⟨rfl, rfl⟩

/-- Claim C10: two catalogs that differ only in some metrics' optional
`displayAsK` fields produce identical displayed metric lists at every tick:
the formatter keys on position (index 3), and `displayAsK` is never read. -/
theorem claim10_thm {α : Type} [LinearOrderedField α] [FloorRing α]
    (c1 c2 : List (MetricConfig α))
    (h : List.Forall₂ sameExceptDisplayAsK c1 c2) (es : List α) :
    runTicks (finalsOf c1) (initMetrics c1) es =
      runTicks (finalsOf c2) (initMetrics c2) es := by
  obtain ⟨h1, h2⟩ := initMetrics_eq_of_sameExceptK h
  rw [h1, h2]

/-- Witness for C10: Scenario A's catalog with `displayAsK` present versus
absent. -/
theorem claim10_witness :
    runTicks
        (finalsOf [⟨"a", "Requests", (42 : ℚ), "ms", "Clock", "blue",
          some true⟩])
        (initMetrics [⟨"a", "Requests", (42 : ℚ), "ms", "Clock", "blue",
          some true⟩]) [1] =
      runTicks
        (finalsOf [⟨"a", "Requests", (42 : ℚ), "ms", "Clock", "blue", none⟩])
        (initMetrics [⟨"a", "Requests", (42 : ℚ), "ms", "Clock", "blue",
          none⟩]) [1] :=
  claim10_thm _ _
    (List.Forall₂.cons ⟨rfl, rfl, rfl, rfl, rfl, rfl⟩ List.Forall₂.nil) [1]
